import Mathlib

/-!
# Verification of the sluice-gate flow calculator

Shallow embedding of the computational core of `src/sluice_gate_app.py`:
the two discharge formulas (`gate_flow_vt_chow`, `gate_flow_corps_ref`),
the per-gate sill / water-depth / flow / percent-error columns, and the
per-gate record table (`df`). Machine floating point is modelled by the
real numbers; `math.sqrt` is `Real.sqrt`.
-/

namespace SluiceGate

noncomputable section

/-- `gate_flow_vt_chow(G, h, Cd=0.58, b=15.91, g=9.81)` (source lines 30-33):
returns the sentinel `0.7` when `G <= 0 or h <= 0`, else `Cd*b*G*sqrt(2*g*h)`. -/
def gate_flow_vt_chow (G h Cd b g : ℝ) : ℝ :=
  if G ≤ 0 ∨ h ≤ 0 then 0.7 else Cd * b * G * Real.sqrt (2 * g * h)

/-- The local variable `numerator` of `gate_flow_corps_ref` (source line 38). -/
def corps_numerator (G h Cd b g : ℝ) : ℝ :=
  Cd * b * G * Real.sqrt (2 * g * (h - Cd * G))

/-- The local variable `denominator` of `gate_flow_corps_ref` (source line 39). -/
def corps_denominator (G h Cd : ℝ) : ℝ :=
  Real.sqrt (1 - (Cd * G / h) ^ 2)

/-- `gate_flow_corps_ref(G, h, Cd=0.61, b=15.91, g=9.81)` (source lines 35-40):
returns the sentinel `0.7` when `G <= 0 or h <= 0 or h <= Cd*G`, else
`numerator / denominator`. -/
def gate_flow_corps_ref (G h Cd b g : ℝ) : ℝ :=
  if G ≤ 0 ∨ h ≤ 0 ∨ h ≤ Cd * G then 0.7
  else corps_numerator G h Cd b g / corps_denominator G h Cd

/-- The spec's FormulaA: `gate_flow_vt_chow` at its default parameters. -/
def FormulaA (G h : ℝ) : ℝ := gate_flow_vt_chow G h 0.58 15.91 9.81

/-- The spec's FormulaB: `gate_flow_corps_ref` at its default parameters. -/
def FormulaB (G h : ℝ) : ℝ := gate_flow_corps_ref G h 0.61 15.91 9.81

/-- `sill = [sill_1_to_4]*4 + [sill_5_to_8]*4 + [sill_9_to_16]*8` (source line 144). -/
def sill (s14 s58 s916 : ℝ) : List ℝ :=
  List.replicate 4 s14 ++ List.replicate 4 s58 ++ List.replicate 8 s916

/-- `water_depth = [max(SWP - s, 0) for s in sill]` (source line 145). -/
def water_depth (SWP : ℝ) (sills : List ℝ) : List ℝ :=
  sills.map (fun s => max (SWP - s) 0)

/-- `flow_vt_chow = [gate_flow_vt_chow(G, h) for G, h in zip(openings, water_depth)]`
(source line 147). -/
def flow_vt_chow (openings depths : List ℝ) : List ℝ :=
  (openings.zip depths).map (fun p => FormulaA p.1 p.2)

/-- `flow_corps_ref = [gate_flow_corps_ref(G, h) for G, h in zip(openings, water_depth)]`
(source line 148). -/
def flow_corps_ref (openings depths : List ℝ) : List ℝ :=
  (openings.zip depths).map (fun p => FormulaB p.1 p.2)

/-- The per-pair kernel of `relative_error` (source line 150):
`abs((a - b)/b * 100) if b != 0 else 0`. -/
def percentDeviation (a b : ℝ) : ℝ :=
  if b ≠ 0 then |(a - b) / b * 100| else 0

/-- `relative_error = [... for a, b in zip(flow_vt_chow, flow_corps_ref)]`
(source line 150). -/
def relative_error (fa fb : List ℝ) : List ℝ :=
  List.zipWith percentDeviation fa fb

/-- One row of the `df` table (source lines 152-160): gate id, sill, opening
height, water depth, both flows, percent error. -/
structure GateRecord where
  gate : ℕ
  sillElev : ℝ
  opening : ℝ
  depth : ℝ
  flowA : ℝ
  flowB : ℝ
  err : ℝ

instance : Inhabited GateRecord := ⟨⟨0, 0, 0, 0, 0, 0, 0⟩⟩

/-- The `df` table (source lines 152-160): row `i` (zero-based) pairs gate id
`i+1` with the `i`-th entry of each column. -/
def df (SWP s14 s58 s916 : ℝ) (openings : List ℝ) : List GateRecord :=
  let sills := sill s14 s58 s916
  let depths := water_depth SWP sills
  let fA := flow_vt_chow openings depths
  let fB := flow_corps_ref openings depths
  let errs := relative_error fA fB
  (List.range 16).map (fun i =>
    ⟨i + 1, sills.getD i 0, openings.getD i 0, depths.getD i 0,
      fA.getD i 0, fB.getD i 0, errs.getD i 0⟩)

end

/-- C1: for `G > 0` and `h > 0`, FormulaA with defaults `Cd = 0.58`,
`b = 15.91`, `g = 9.81` returns exactly `Cd * b * G * sqrt(2 * g * h)`. -/
theorem C1_formulaA_value (G h : ℝ) (hG : 0 < G) (hh : 0 < h) :
    FormulaA G h = 0.58 * 15.91 * G * Real.sqrt (2 * 9.81 * h) := by
  unfold FormulaA gate_flow_vt_chow
  rw [if_neg]
  push_neg
  exact ⟨hG, hh⟩

/-- Witness for C1 at `G = 1`, `h = 2`. -/
theorem C1_formulaA_value_witness :
    FormulaA 1 2 = 0.58 * 15.91 * 1 * Real.sqrt (2 * 9.81 * 2) :=
  C1_formulaA_value 1 2 (by norm_num) (by norm_num)

/-- C2: for `G > 0`, `h > 0` and `h > Cd * G` with `Cd = 0.61` (and
`b = 15.91`, `g = 9.81`), FormulaB returns
`(Cd * b * G * sqrt(2 * g * (h - Cd*G))) / sqrt(1 - (Cd*G/h)^2)`. -/
theorem C2_formulaB_value (G h : ℝ) (hG : 0 < G) (hh : 0 < h)
    (hc : 0.61 * G < h) :
    FormulaB G h =
      0.61 * 15.91 * G * Real.sqrt (2 * 9.81 * (h - 0.61 * G)) /
        Real.sqrt (1 - (0.61 * G / h) ^ 2) := by
  unfold FormulaB gate_flow_corps_ref corps_numerator corps_denominator
  rw [if_neg]
  push_neg
  exact ⟨hG, hh, hc⟩

/-- Witness for C2 at `G = 1`, `h = 2`. -/
theorem C2_formulaB_value_witness :
    FormulaB 1 2 =
      0.61 * 15.91 * 1 * Real.sqrt (2 * 9.81 * (2 - 0.61 * 1)) /
        Real.sqrt (1 - (0.61 * 1 / 2) ^ 2) :=
  C2_formulaB_value 1 2 (by norm_num) (by norm_num) (by norm_num)

/-- At `G = 3500/46139`, `h = 50/981` the guard of `gate_flow_vt_chow` is not
taken and the formula evaluates to exactly `0.7`: the radicand is
`2 * 9.81 * (50/981) = 1` and `0.58 * 15.91 * (3500/46139) = 0.7`. -/
lemma formulaA_sentinel_in_domain :
    0 < (3500 / 46139 : ℝ) ∧ 0 < (50 / 981 : ℝ) ∧
      FormulaA (3500 / 46139) (50 / 981) = 0.7 := by
  refine ⟨by norm_num, by norm_num, ?_⟩
  unfold FormulaA gate_flow_vt_chow
  rw [if_neg (by push_neg; norm_num)]
  have h1 : (2 * 9.81 * (50 / 981) : ℝ) = 1 := by norm_num
  rw [h1, Real.sqrt_one]
  norm_num

/-- C3 counterexample: the sentinel value `0.7` is also returned inside the
valid domain, so "returns 0.7 exactly when the guard holds" is false for
FormulaA: here FormulaA returns `0.7` although neither `G ≤ 0` nor `h ≤ 0`. -/
theorem C3_counterexample_sentinel_in_domain :
    FormulaA (3500 / 46139) (50 / 981) = 0.7 ∧
      ¬((3500 / 46139 : ℝ) ≤ 0 ∨ (50 / 981 : ℝ) ≤ 0) := by
  obtain ⟨hG, hh, hv⟩ := formulaA_sentinel_in_domain
  exact ⟨hv, by push_neg; exact ⟨hG, hh⟩⟩

/-- C3 amended: FormulaA returns the sentinel `0.7` whenever `G ≤ 0` or
`h ≤ 0`, and FormulaB (with `Cd = 0.61`) returns `0.7` whenever `G ≤ 0`,
`h ≤ 0` or `h ≤ Cd*G`; in those cases the returned value is `0.7`, which is
nonzero (the converse direction fails: `0.7` is also attained in-domain). -/
theorem C3_sentinel_on_guard (G h : ℝ) :
    (G ≤ 0 ∨ h ≤ 0 → FormulaA G h = 0.7 ∧ FormulaA G h ≠ 0) ∧
      (G ≤ 0 ∨ h ≤ 0 ∨ h ≤ 0.61 * G → FormulaB G h = 0.7 ∧ FormulaB G h ≠ 0) := by
  constructor
  · intro hg
    have hv : FormulaA G h = 0.7 := by
      unfold FormulaA gate_flow_vt_chow
      rw [if_pos hg]
    exact ⟨hv, by rw [hv]; norm_num⟩
  · intro hg
    have hv : FormulaB G h = 0.7 := by
      unfold FormulaB gate_flow_corps_ref
      rw [if_pos hg]
    exact ⟨hv, by rw [hv]; norm_num⟩

/-- Witness for C3 amended: `G = -1, h = 1` for FormulaA and `G = 1, h = 0.5`
(where `h ≤ 0.61 * G`) for FormulaB. -/
theorem C3_sentinel_on_guard_witness :
    FormulaA (-1) 1 = 0.7 ∧ FormulaB 1 0.5 = 0.7 :=
  ⟨((C3_sentinel_on_guard (-1) 1).1 (Or.inl (by norm_num))).1,
   ((C3_sentinel_on_guard 1 0.5).2 (Or.inr (Or.inr (by norm_num)))).1⟩

/-- C10: there is an in-domain input (`G > 0`, `h > 0`) at which
`gate_flow_vt_chow` returns exactly the sentinel value `0.7`, so callers
cannot distinguish the sentinel from a genuine flow result. -/
theorem C10_sentinel_indistinguishable :
    ∃ G h : ℝ, 0 < G ∧ 0 < h ∧ FormulaA G h = 0.7 :=
  ⟨3500 / 46139, 50 / 981, formulaA_sentinel_in_domain⟩

/-- C5: the percent deviation equals `abs((a - b)/b * 100)` when `b ≠ 0`, is
defined as `0` when `b = 0`, and is always nonnegative. -/
theorem C5_percentDeviation_guarded (a b : ℝ) :
    (b ≠ 0 → percentDeviation a b = |(a - b) / b * 100|) ∧
      (b = 0 → percentDeviation a b = 0) ∧ 0 ≤ percentDeviation a b := by
  unfold percentDeviation
  split_ifs with hb
  · exact ⟨fun _ => rfl, fun h0 => absurd h0 hb, abs_nonneg _⟩
  · exact ⟨fun h0 => absurd h0 hb, fun _ => rfl, le_refl 0⟩

/-- Witness for C5 at `a = 1, b = 2` and `a = 1, b = 0`. -/
theorem C5_percentDeviation_guarded_witness :
    percentDeviation 1 2 = |((1 : ℝ) - 2) / 2 * 100| ∧ percentDeviation 1 0 = 0 :=
  ⟨(C5_percentDeviation_guarded 1 2).1 (by norm_num),
   (C5_percentDeviation_guarded 1 0).2.1 rfl⟩

/-- On FormulaB's valid domain the ratio `Cd*G/h` lies strictly between 0
and 1, so `1 - (Cd*G/h)^2` is strictly positive. -/
lemma denom_radicand_pos (G h : ℝ) (hG : 0 < G) (hh : 0 < h)
    (hc : 0.61 * G < h) : 0 < 1 - (0.61 * G / h) ^ 2 := by
  have hr0 : 0 < 0.61 * G / h := div_pos (by nlinarith) hh
  have hr1 : 0.61 * G / h < 1 := (div_lt_one hh).mpr hc
  nlinarith

/-- C6: under FormulaB's guard (`G > 0`, `h > 0`, `h > Cd*G`) both square-root
arguments are strictly positive, the denominator is nonzero, and the returned
value is the well-defined quotient `numerator / denominator`. -/
theorem C6_formulaB_total (G h : ℝ) (hG : 0 < G) (hh : 0 < h)
    (hc : 0.61 * G < h) :
    0 < 2 * 9.81 * (h - 0.61 * G) ∧ 0 < 1 - (0.61 * G / h) ^ 2 ∧
      corps_denominator G h 0.61 ≠ 0 ∧
      FormulaB G h =
        corps_numerator G h 0.61 15.91 9.81 / corps_denominator G h 0.61 := by
  have hrad := denom_radicand_pos G h hG hh hc
  refine ⟨by nlinarith, hrad, ?_, ?_⟩
  · unfold corps_denominator
    exact ne_of_gt (Real.sqrt_pos.mpr hrad)
  · unfold FormulaB gate_flow_corps_ref
    rw [if_neg (by push_neg; exact ⟨hG, hh, hc⟩)]

/-- Witness for C6 at `G = 1`, `h = 1` (where `0.61 * 1 < 1`). -/
theorem C6_formulaB_total_witness :
    corps_denominator 1 1 0.61 ≠ 0 ∧
      FormulaB 1 1 = corps_numerator 1 1 0.61 15.91 9.81 / corps_denominator 1 1 0.61 :=
  ⟨(C6_formulaB_total 1 1 (by norm_num) (by norm_num) (by norm_num)).2.2.1,
   (C6_formulaB_total 1 1 (by norm_num) (by norm_num) (by norm_num)).2.2.2⟩

/-- C9: both formulas return a strictly positive value at every real input
(the sentinel `0.7` on the guard branch, a product/quotient of strictly
positive factors otherwise); hence FormulaB is never `0` and the `else 0`
branch of the percent-deviation guard can never fire on a FormulaB output. -/
theorem C9_flows_positive (G h a : ℝ) :
    0 < FormulaA G h ∧ 0 < FormulaB G h ∧ FormulaB G h ≠ 0 ∧
      percentDeviation a (FormulaB G h) =
        |(a - FormulaB G h) / FormulaB G h * 100| := by
  have hA : 0 < FormulaA G h := by
    unfold FormulaA gate_flow_vt_chow
    split_ifs with hcond
    · norm_num
    · push_neg at hcond
      obtain ⟨hG, hh⟩ := hcond
      have hs : 0 < Real.sqrt (2 * 9.81 * h) := Real.sqrt_pos.mpr (by nlinarith)
      nlinarith
  have hB : 0 < FormulaB G h := by
    unfold FormulaB gate_flow_corps_ref
    split_ifs with hcond
    · norm_num
    · push_neg at hcond
      obtain ⟨hG, hh, hc⟩ := hcond
      apply div_pos
      · unfold corps_numerator
        have hs : 0 < Real.sqrt (2 * 9.81 * (h - 0.61 * G)) :=
          Real.sqrt_pos.mpr (by nlinarith)
        nlinarith
      · unfold corps_denominator
        exact Real.sqrt_pos.mpr (denom_radicand_pos G h hG hh hc)
  refine ⟨hA, hB, ne_of_gt hB, ?_⟩
  unfold percentDeviation
  rw [if_pos (ne_of_gt hB)]

/-- Row `i` of a table built by mapping over `List.range n`. -/
lemma getD_map_range {α : Type} (f : ℕ → α) {n i : ℕ} (hi : i < n) (d : α) :
    ((List.range n).map f).getD i d = f i := by
  rw [List.getD_eq_getElem?_getD, List.getElem?_map, List.getElem?_range hi]
  rfl

lemma sill_length (s14 s58 s916 : ℝ) : (sill s14 s58 s916).length = 16 := by
  simp [sill]

/-- The sill column assigns the first value to gates 1-4 (indices 0-3), the
second to gates 5-8 (indices 4-7), the third to gates 9-16 (indices 8-15). -/
lemma sill_getD (s14 s58 s916 : ℝ) {i : ℕ} (hi : i < 16) :
    (sill s14 s58 s916).getD i 0 =
      if i < 4 then s14 else if i < 8 then s58 else s916 := by
  interval_cases i <;> simp [sill, List.replicate]

lemma water_depth_getD (SWP : ℝ) (l : List ℝ) {i : ℕ} (hi : i < l.length) :
    (water_depth SWP l).getD i 0 = max (SWP - l.getD i 0) 0 := by
  unfold water_depth
  rw [List.getD_eq_getElem?_getD, List.getElem?_map,
    List.getElem?_eq_getElem hi, List.getD_eq_getElem l 0 hi]
  rfl

/-- C4: the table has exactly 16 records in gate-id order 1..16; the sill of
gates 1-4 is the first sill value, of gates 5-8 the second, of gates 9-16 the
third; each gate's water depth is `max(level - sill, 0)`, hence nonnegative. -/
theorem C4_aggregator_rows (SWP s14 s58 s916 : ℝ) (openings : List ℝ)
    (hlen : openings.length = 16) :
    (df SWP s14 s58 s916 openings).length = 16 ∧
      ∀ i : ℕ, i < 16 →
        ((df SWP s14 s58 s916 openings).getD i default).gate = i + 1 ∧
        ((df SWP s14 s58 s916 openings).getD i default).sillElev =
          (if i < 4 then s14 else if i < 8 then s58 else s916) ∧
        ((df SWP s14 s58 s916 openings).getD i default).depth =
          max (SWP - (if i < 4 then s14 else if i < 8 then s58 else s916)) 0 ∧
        0 ≤ ((df SWP s14 s58 s916 openings).getD i default).depth := by
  constructor
  · simp [df]
  · intro i hi
    have hrow : (df SWP s14 s58 s916 openings).getD i default =
        ⟨i + 1, (sill s14 s58 s916).getD i 0, openings.getD i 0,
          (water_depth SWP (sill s14 s58 s916)).getD i 0,
          (flow_vt_chow openings (water_depth SWP (sill s14 s58 s916))).getD i 0,
          (flow_corps_ref openings (water_depth SWP (sill s14 s58 s916))).getD i 0,
          (relative_error
            (flow_vt_chow openings (water_depth SWP (sill s14 s58 s916)))
            (flow_corps_ref openings (water_depth SWP (sill s14 s58 s916)))).getD i 0⟩ := by
      unfold df
      exact getD_map_range _ hi _
    have hdep : (water_depth SWP (sill s14 s58 s916)).getD i 0 =
        max (SWP - (sill s14 s58 s916).getD i 0) 0 :=
      water_depth_getD SWP _ (by rw [sill_length]; exact hi)
    rw [hrow]
    refine ⟨rfl, sill_getD s14 s58 s916 hi, ?_, ?_⟩
    · show (water_depth SWP (sill s14 s58 s916)).getD i 0 = _
      rw [hdep, sill_getD s14 s58 s916 hi]
    · show 0 ≤ (water_depth SWP (sill s14 s58 s916)).getD i 0
      rw [hdep]
      exact le_max_right _ _

/-- Witness for C4 at the app's default inputs and all openings `0.5`. -/
theorem C4_aggregator_rows_witness :
    (df 181.20 180.05 179.75 180.05 (List.replicate 16 0.5)).length = 16 ∧
      ((df 181.20 180.05 179.75 180.05 (List.replicate 16 0.5)).getD 0
        default).gate = 1 := by
  have H := C4_aggregator_rows 181.20 180.05 179.75 180.05
    (List.replicate 16 0.5) (by simp)
  exact ⟨H.1, (H.2 0 (by norm_num)).1⟩

/-- FormulaA evaluated off the guard at `G = 0.5`, `h = 1`. -/
lemma formulaA_half_one :
    FormulaA 0.5 1 = 0.58 * 15.91 * 0.5 * Real.sqrt (2 * 9.81 * 1) := by
  unfold FormulaA gate_flow_vt_chow
  rw [if_neg (by push_neg; norm_num)]

/-- Rational bounds on `sqrt(2 * 9.81 * 1) = sqrt(19.62)`. -/
lemma sqrt_19_62_bounds :
    (4.42944 : ℝ) < Real.sqrt (2 * 9.81 * 1) ∧
      Real.sqrt (2 * 9.81 * 1) < 4.42945 := by
  rw [show (2 * 9.81 * 1 : ℝ) = 19.62 by norm_num]
  exact ⟨(Real.lt_sqrt (by norm_num)).mpr (by norm_num),
    (Real.sqrt_lt' (by norm_num)).mpr (by norm_num)⟩

/-- C8 counterexample: at `G = 0.5`, `h = 1` FormulaA is more than `0.1` away
from the spec's value `20.33` (the true value is `≈ 20.437`), so it does not
equal `20.33` to three (or even one) decimal places. -/
theorem C8_counterexample_value_not_20_33 :
    0.1 < |FormulaA 0.5 1 - 20.33| := by
  obtain ⟨h1, h2⟩ := sqrt_19_62_bounds
  rw [formulaA_half_one, abs_of_nonneg (by nlinarith)]
  nlinarith

/-- C8 amended: at `G = 0.5`, `h = 1` FormulaA returns exactly
`0.58 * 15.91 * 0.5 * sqrt(2 * 9.81 * 1)`, which is `20.437` to three
decimal places (not `20.33`). -/
theorem C8_amended_value :
    FormulaA 0.5 1 = 0.58 * 15.91 * 0.5 * Real.sqrt (2 * 9.81 * 1) ∧
      |FormulaA 0.5 1 - 20.437| < 0.0005 := by
  obtain ⟨h1, h2⟩ := sqrt_19_62_bounds
  refine ⟨formulaA_half_one, ?_⟩
  rw [formulaA_half_one, abs_lt]
  constructor <;> nlinarith

lemma sqrt_2g_pos : 0 < Real.sqrt (2 * 9.81) :=
  Real.sqrt_pos.mpr (by norm_num)

/-- On its valid domain FormulaB collapses to
`Cd * b * sqrt(2g) * (G * h / sqrt(h + Cd*G))`: the factor `sqrt(h - Cd*G)`
appearing in both numerator and denominator cancels. -/
lemma formulaB_closed_form (G h : ℝ) (hG : 0 < G) (hc : 0.61 * G < h) :
    FormulaB G h =
      0.61 * 15.91 * Real.sqrt (2 * 9.81) * (G * h / Real.sqrt (h + 0.61 * G)) := by
  have ha : 0 < 0.61 * G := by nlinarith
  have hh : 0 < h := ha.trans hc
  unfold FormulaB gate_flow_corps_ref corps_numerator corps_denominator
  rw [if_neg (by push_neg; exact ⟨hG, hh, hc⟩)]
  have h1 : 1 - (0.61 * G / h) ^ 2 = (h - 0.61 * G) * (h + 0.61 * G) / h ^ 2 := by
    field_simp
    ring
  rw [h1, Real.sqrt_div (by nlinarith) (h ^ 2), Real.sqrt_sq hh.le,
    Real.sqrt_mul (by nlinarith : (0:ℝ) ≤ h - 0.61 * G) (h + 0.61 * G),
    Real.sqrt_mul (by norm_num : (0:ℝ) ≤ 2 * 9.81) (h - 0.61 * G)]
  have hsa : Real.sqrt (h - 0.61 * G) ≠ 0 :=
    ne_of_gt (Real.sqrt_pos.mpr (by nlinarith))
  have hsb : Real.sqrt (h + 0.61 * G) ≠ 0 :=
    ne_of_gt (Real.sqrt_pos.mpr (by nlinarith))
  field_simp
  ring

lemma formulaB_mono_G (h G1 G2 : ℝ) (hG1 : 0 < G1) (h12 : G1 < G2)
    (hc : 0.61 * G2 < h) : FormulaB G1 h < FormulaB G2 h := by
  have hG2 : 0 < G2 := hG1.trans h12
  have hc1 : 0.61 * G1 < h := by nlinarith
  have hh : 0 < h := by nlinarith
  have hs1 : 0 < h + 0.61 * G1 := by nlinarith
  have hs2 : 0 < h + 0.61 * G2 := by nlinarith
  rw [formulaB_closed_form G1 h hG1 hc1, formulaB_closed_form G2 h hG2 hc]
  have hC : 0 < 0.61 * 15.91 * Real.sqrt (2 * 9.81) := by
    have := sqrt_2g_pos
    nlinarith
  apply mul_lt_mul_of_pos_left ?_ hC
  have key : (G1 * h / Real.sqrt (h + 0.61 * G1)) ^ 2 <
      (G2 * h / Real.sqrt (h + 0.61 * G2)) ^ 2 := by
    rw [div_pow, div_pow, Real.sq_sqrt hs1.le, Real.sq_sqrt hs2.le,
      div_lt_div_iff₀ hs1 hs2]
    nlinarith [mul_pos hh hh, mul_pos hG1 hG2, mul_pos (mul_pos hh hh) hh,
      mul_pos (sub_pos.mpr h12) (mul_pos (mul_pos hG1 hG2) (mul_pos hh hh)),
      mul_pos (sub_pos.mpr h12)
        (mul_pos (add_pos hG1 hG2) (mul_pos (mul_pos hh hh) hh))]
  have hy : 0 ≤ G2 * h / Real.sqrt (h + 0.61 * G2) := by positivity
  exact lt_of_pow_lt_pow_left₀ 2 hy key

lemma formulaB_mono_h (G h1 h2 : ℝ) (hG : 0 < G) (hc : 0.61 * G < h1)
    (h12 : h1 < h2) : FormulaB G h1 < FormulaB G h2 := by
  have hc2 : 0.61 * G < h2 := hc.trans h12
  have hh1 : 0 < h1 := by nlinarith
  have hh2 : 0 < h2 := by nlinarith
  have hs1 : 0 < h1 + 0.61 * G := by nlinarith
  have hs2 : 0 < h2 + 0.61 * G := by nlinarith
  rw [formulaB_closed_form G h1 hG hc, formulaB_closed_form G h2 hG hc2]
  have hC : 0 < 0.61 * 15.91 * Real.sqrt (2 * 9.81) := by
    have := sqrt_2g_pos
    nlinarith
  apply mul_lt_mul_of_pos_left ?_ hC
  have key : (G * h1 / Real.sqrt (h1 + 0.61 * G)) ^ 2 <
      (G * h2 / Real.sqrt (h2 + 0.61 * G)) ^ 2 := by
    rw [div_pow, div_pow, Real.sq_sqrt hs1.le, Real.sq_sqrt hs2.le,
      div_lt_div_iff₀ hs1 hs2]
    nlinarith [mul_pos hG hG, mul_pos hh1 hh2,
      mul_pos (sub_pos.mpr h12) (mul_pos (mul_pos hG hG) (mul_pos hh1 hh2)),
      mul_pos (sub_pos.mpr h12) (mul_pos (mul_pos hG hG)
        (mul_pos (by nlinarith : (0:ℝ) < 0.61 * G) (add_pos hh1 hh2)))]
  have hy : 0 ≤ G * h2 / Real.sqrt (h2 + 0.61 * G) := by positivity
  exact lt_of_pow_lt_pow_left₀ 2 hy key

/-- C7: on the valid domain (`G > 0`, `h > 0` for FormulaA; additionally
`h > Cd*G` for FormulaB) each formula is strictly increasing in `G` for fixed
`h` and strictly increasing in `h` for fixed `G`. -/
theorem C7_strict_monotonicity :
    (∀ h G1 G2 : ℝ, 0 < h → 0 < G1 → G1 < G2 →
      FormulaA G1 h < FormulaA G2 h) ∧
    (∀ G h1 h2 : ℝ, 0 < G → 0 < h1 → h1 < h2 →
      FormulaA G h1 < FormulaA G h2) ∧
    (∀ h G1 G2 : ℝ, 0 < G1 → G1 < G2 → 0.61 * G2 < h →
      FormulaB G1 h < FormulaB G2 h) ∧
    (∀ G h1 h2 : ℝ, 0 < G → 0.61 * G < h1 → h1 < h2 →
      FormulaB G h1 < FormulaB G h2) := by
  refine ⟨?_, ?_, fun h G1 G2 hG1 h12 hc => formulaB_mono_G h G1 G2 hG1 h12 hc,
    fun G h1 h2 hG hc h12 => formulaB_mono_h G h1 h2 hG hc h12⟩
  · intro h G1 G2 hh hG1 h12
    unfold FormulaA gate_flow_vt_chow
    rw [if_neg (by push_neg; exact ⟨hG1, hh⟩),
      if_neg (by push_neg; exact ⟨hG1.trans h12, hh⟩)]
    have hs : 0 < Real.sqrt (2 * 9.81 * h) := Real.sqrt_pos.mpr (by nlinarith)
    nlinarith
  · intro G h1 h2 hG hh1 h12
    unfold FormulaA gate_flow_vt_chow
    rw [if_neg (by push_neg; exact ⟨hG, hh1⟩),
      if_neg (by push_neg; exact ⟨hG, hh1.trans h12⟩)]
    have hlt : Real.sqrt (2 * 9.81 * h1) < Real.sqrt (2 * 9.81 * h2) :=
      Real.sqrt_lt_sqrt (by nlinarith) (by nlinarith)
    have hs0 : 0 ≤ Real.sqrt (2 * 9.81 * h1) := Real.sqrt_nonneg _
    nlinarith

/-- Witness for C7 at concrete points: `FormulaA` at `h = 1`, `G = 1 < 2` and
`G = 1`, `h = 1 < 2`; `FormulaB` at `h = 2`, `G = 1 < 2` and `G = 1`,
`h = 1 < 2`. -/
theorem C7_strict_monotonicity_witness :
    FormulaA 1 1 < FormulaA 2 1 ∧ FormulaA 1 1 < FormulaA 1 2 ∧
      FormulaB 1 2 < FormulaB 2 2 ∧ FormulaB 1 1 < FormulaB 1 2 :=
  ⟨C7_strict_monotonicity.1 1 1 2 (by norm_num) (by norm_num) (by norm_num),
   C7_strict_monotonicity.2.1 1 1 2 (by norm_num) (by norm_num) (by norm_num),
   C7_strict_monotonicity.2.2.1 2 1 2 (by norm_num) (by norm_num) (by norm_num),
   C7_strict_monotonicity.2.2.2 1 1 2 (by norm_num) (by norm_num) (by norm_num)⟩

end SluiceGate
